import Mathlib

/-!
# Verification of the pet-door monitor core pipeline

Shallow embedding of the capture-detect-store pipeline of `src/app.py`
(with the mock classifier of `src/mock_camera.py`), together with proofs
settling the frozen claims about it.

Modelling conventions:
* Machine floats (`time.time()`, confidences, mtimes, storage GB) are
  modelled as `ℚ`; file sizes in bytes as `ℕ`.
* The on-disk evidence tree is a list of `StoredFile` records (category
  directory, filename stem, extension, mtime, size).
* OpenCV image primitives (`cvtColor`, `GaussianBlur`, `absdiff`,
  `threshold`, `addWeighted`, `countNonZero`) are opaque external image
  operations; they are passed in as a `CVOps` record so that theorems
  quantify over every possible implementation of them.
* Exceptions raised by external stages (camera capture, classifier call,
  image/metadata write) are modelled as `Except`/`Bool` valued per-tick
  oracle inputs; the `try/except` of `monitoring_loop` becomes the
  `TickResult` outcome of a total `tick` function.
-/

namespace PetDoor

/-- The `CONFIG` dict of `src/app.py` (lines 31-39).  `resolution` and
`storage_path` are not needed by any claim and are omitted; `fps` and
`high_water_mark_gb` are stored as Python ints, `detection_confidence`,
`motion_threshold` and `cooldown_seconds` as numbers modelled in `ℚ`. -/
structure Config where
  fps : ℤ
  high_water_mark_gb : ℤ
  detection_confidence : ℚ
  motion_threshold : ℚ
  cooldown_seconds : ℚ
deriving DecidableEq, Repr

/-- The default `CONFIG` values of `src/app.py`:
`fps 2, high_water_mark_gb 10, detection_confidence 0.5,
motion_threshold 30, cooldown_seconds 5`. -/
def defaultCONFIG : Config :=
  { fps := 2
    high_water_mark_gb := 10
    detection_confidence := 1/2
    motion_threshold := 30
    cooldown_seconds := 5 }

/-- `handle_config` POST body (`src/app.py` lines 309-315): each key is
optional; present keys are converted with `int(...)` / `float(...)`. -/
structure ConfigUpdate where
  fps : Option ℤ
  high_water_mark_gb : Option ℤ
  detection_confidence : Option ℚ
deriving DecidableEq, Repr

/-- `handle_config` POST path (`src/app.py` lines 309-317): every supplied
value is stored into `CONFIG` directly; the source performs no range
validation of any kind. -/
def handle_config (data : ConfigUpdate) (cfg : Config) : Config :=
  let cfg1 := match data.fps with
    | some v => { cfg with fps := v }
    | none => cfg
  let cfg2 := match data.high_water_mark_gb with
    | some v => { cfg1 with high_water_mark_gb := v }
    | none => cfg1
  match data.detection_confidence with
  | some v => { cfg2 with detection_confidence := v }
  | none => cfg2

/-- One raw box of the classifier capability output: `box.cls[0]`,
`box.conf[0]`, `box.xyxy[0].tolist()` (`src/mock_camera.py` lines 97-111). -/
structure RawBox where
  cls : ℕ
  conf : ℚ
  xyxy : List ℚ
deriving DecidableEq, Repr

/-- A detection record as appended by `detect_pets`
(`src/app.py` lines 162-167): `{type, confidence, bbox}`. -/
structure Detection where
  type : String
  confidence : ℚ
  bbox : List ℚ
deriving DecidableEq, Repr

/-- The class-name table `{15: 'cat', 16: 'dog'}` of the mock model
(`src/mock_camera.py` lines 71, 83).  The real YOLO table maps the other
class ids to non-pet names (person, car, ...); the mock only ever emits
ids 15 and 16, so any name distinct from `cat`/`dog` is faithful for the
remaining ids. -/
def mockNames (id : ℕ) : String :=
  if id = 15 then "cat" else if id = 16 then "dog" else "other"

/-- `MockYOLO.__call__(frame, conf)` (`src/mock_camera.py` lines 73-75):
it returns the randomly generated boxes and **ignores its `conf`
argument** — the requested confidence threshold is not applied by the
mock capability.  The random boxes produced for this call are the first
argument. -/
def mockYOLOCall (randomBoxes : List RawBox) (conf : ℚ) : List RawBox :=
  randomBoxes

/-- The box-filtering loop of `detect_pets` (`src/app.py` lines 154-169):
keep a box iff its class name is `cat` or `dog`; the confidence value is
copied through unconditionally. -/
def filterPets : List RawBox → List Detection
  | [] => []
  | b :: rest =>
    let class_name := mockNames b.cls
    if class_name == "cat" || class_name == "dog" then
      { type := class_name, confidence := b.conf, bbox := b.xyxy } :: filterPets rest
    else
      filterPets rest

/-- `detect_pets(frame)` (`src/app.py` lines 150-169): call the model with
`conf=CONFIG['detection_confidence']`, then keep the `cat`/`dog` boxes.
The frame-dependent random output of the capability is supplied as
`randomBoxes`. -/
def detect_pets (cfg : Config) (randomBoxes : List RawBox) : List Detection :=
  let results := mockYOLOCall randomBoxes cfg.detection_confidence
  filterPets results

/-- The set of boxes `MockBox.__init__` can generate
(`src/mock_camera.py` lines 100-111): class id 15 or 16, confidence drawn
from `uniform(0.5, 0.95)`, bbox `[x1, y1, x1+w, y1+h]` with
`x1 ∈ [0,1000)`, `y1 ∈ [0,600)`, `w, h ∈ [100,300)`. -/
def mockBoxPossible (b : RawBox) : Prop :=
  (b.cls = 15 ∨ b.cls = 16) ∧ (1/2 : ℚ) ≤ b.conf ∧ b.conf < 19/20 ∧
    ∃ x1 y1 w h : ℚ, b.xyxy = [x1, y1, x1 + w, y1 + h] ∧
      0 ≤ x1 ∧ x1 < 1000 ∧ 0 ≤ y1 ∧ y1 < 600 ∧
      100 ≤ w ∧ w < 300 ∧ 100 ≤ h ∧ h < 300

/-- The category decision of `save_detection` (`src/app.py` lines 175-182):
empty list → `unknown`; else any cat → `cats`; else any dog → `dogs`;
else `unknown`. -/
def categoryOf (pets : List Detection) : String :=
  if pets.isEmpty then "unknown"
  else if pets.any (fun p => p.type == "cat") then "cats"
  else if pets.any (fun p => p.type == "dog") then "dogs"
  else "unknown"

/-- The category decision as the spec words it (§4.4): priority order
cat → `cats`, dog → `dogs`, otherwise `unknown`, with the empty list
falling into the final case.  Stated from the spec, to be compared with
`categoryOf` (the definition taken from the source). -/
def categorySpec (pets : List Detection) : String :=
  if pets.any (fun p => p.type == "cat") then "cats"
  else if pets.any (fun p => p.type == "dog") then "dogs"
  else "unknown"

/-- One file of the evidence tree: a file
`storage_path/<category>/<stem>.<ext>` with its mtime and size in bytes.
The stem is the second-granularity `strftime('%Y%m%d_%H%M%S')` string,
modelled by the whole-second count it is derived from (the format is
injective on whole seconds). -/
structure StoredFile where
  category : String
  stem : ℕ
  ext : String
  mtime : ℚ
  size : ℕ
deriving DecidableEq, Repr

/-- The evidence tree under `storage_path`, as the list of its files. -/
abbrev Store := List StoredFile

/-- `get_storage_usage_gb` (`src/app.py` lines 94-99): sum of all file
sizes (every extension) divided by `1024 ** 3`. -/
def get_storage_usage_gb (store : Store) : ℚ :=
  ((store.map (fun f => f.size)).sum : ℚ) / (1024 ^ 3)

/-- Comparison key of `all_files.sort(key=lambda x: x[1])`
(`src/app.py` line 116): ascending mtime. -/
def mtimeLE (a b : StoredFile) : Prop := a.mtime ≤ b.mtime

instance : DecidableRel mtimeLE := fun a b => inferInstanceAs (Decidable (a.mtime ≤ b.mtime))

instance : IsTotal StoredFile mtimeLE := ⟨fun a b => le_total a.mtime b.mtime⟩

instance : IsTrans StoredFile mtimeLE := ⟨fun _ _ _ h h' => le_trans h h'⟩

/-- The deletion batch of `cleanup_old_files` (`src/app.py`
lines 109-119): collect every `.jpg` file, sort ascending by mtime, and
take the first `int(len * 0.2)` of them (for `n : ℕ`,
`int(n * 0.2) = ⌊n / 5⌋`: the float product `n * 0.2` always lies weakly
above the exact value `n / 5` and truncation brings it back to
`⌊n / 5⌋`).  Metadata `.json` files are never collected, hence never
deleted. -/
def cleanupDoomed (store : Store) : List StoredFile :=
  let all_files := store.filter (fun f => f.ext == "jpg")
  let sorted := List.insertionSort mtimeLE all_files
  let files_to_delete := sorted.length / 5
  sorted.take files_to_delete

/-- `cleanup_old_files` (`src/app.py` lines 101-126): if usage is at or
below the high-water mark, return the store untouched; otherwise delete
the `cleanupDoomed` batch.  The per-file `try/except os.remove` only
guards OS errors; deletion itself is modelled as always succeeding. -/
def cleanup_old_files (cfg : Config) (store : Store) : Store :=
  if get_storage_usage_gb store ≤ (cfg.high_water_mark_gb : ℚ) then store
  else store.filter (fun f => decide (f ∉ cleanupDoomed store))

/-- A `datetime.now()` capture instant: whole seconds plus microseconds.
`strftime('%Y%m%d_%H%M%S')` depends only on `sec`; `isoformat()` (written
into the metadata) and the resulting file mtime depend on both fields. -/
structure Timestamp where
  sec : ℕ
  usec : ℕ
deriving DecidableEq, Repr

/-- The mtime a file written at instant `t` carries. -/
def Timestamp.asMtime (t : Timestamp) : ℚ :=
  (t.sec : ℚ) + (t.usec : ℚ) / 1000000

/-- Writing one file to the evidence tree (`cv2.imwrite` / `open(..., 'w')`):
a file already at the same path (same category, stem and extension) is
silently replaced. -/
def writeFile (f : StoredFile) (store : Store) : Store :=
  store.filter (fun g =>
    !(g.category == f.category && g.stem == f.stem && g.ext == f.ext)) ++ [f]

/-- `save_detection(frame, pets)` (`src/app.py` lines 171-199): pick the
category, derive the filename from `datetime.now()` at one-second
granularity, write the image (`.jpg`) first and the metadata sidecar
(`.json`) second.  `imgSize`/`metaSize` are the encoded byte sizes. -/
def save_detection (t : Timestamp) (pets : List Detection)
    (imgSize metaSize : ℕ) (store : Store) : Store :=
  let category := categoryOf pets
  let stem := t.sec
  let store1 := writeFile
    { category := category, stem := stem, ext := "jpg",
      mtime := t.asMtime, size := imgSize } store
  writeFile
    { category := category, stem := stem, ext := "json",
      mtime := t.asMtime, size := metaSize } store1

/-- The OpenCV image primitives used by `detect_motion`, abstracted: the
motion-gate control flow does not depend on their pixel-level meaning.
`framePixels` is `frame.shape[0] * frame.shape[1]`. -/
structure CVOps (Frame Gray : Type) where
  cvtColorGray : Frame → Gray
  gaussianBlur : Gray → Gray
  absdiff : Gray → Gray → Gray
  thresholdBinary : Gray → ℚ → Gray
  addWeighted : Gray → ℚ → Gray → ℚ → Gray
  countNonZero : Gray → ℕ
  framePixels : Frame → ℕ

/-- `detect_motion(frame)` (`src/app.py` lines 128-148), with the global
`background_frame` passed in and the updated value returned.  First call
(no background yet): store the grayscale-blurred frame and report no
motion.  Otherwise: absolute difference, binary threshold at 25,
exponential background update with weights 0.9/0.1, and motion iff the
changed-pixel percentage exceeds `motion_threshold`. -/
def detect_motion {Frame Gray : Type} (ops : CVOps Frame Gray) (cfg : Config)
    (frame : Frame) (background_frame : Option Gray) : Bool × Option Gray :=
  let gray := ops.gaussianBlur (ops.cvtColorGray frame)
  match background_frame with
  | none => (false, some gray)
  | some bg =>
    let frame_delta := ops.absdiff bg gray
    let thresh := ops.thresholdBinary frame_delta 25
    let new_bg := ops.addWeighted bg (9/10) gray (1/10)
    let motion_pixels := ops.countNonZero thresh
    let frame_pixels := ops.framePixels frame
    let motion_percent := ((motion_pixels : ℚ) / (frame_pixels : ℚ)) * 100
    (decide (motion_percent > cfg.motion_threshold), some new_bg)

/-- The cooldown rejection test of the monitoring loop (`src/app.py`
line 219): `current_time - last_detection_time < cooldown_seconds`. -/
def cooldownRejects (cooldown last now : ℚ) : Bool :=
  decide (now - last < cooldown)

/-- The debouncer extracted from `monitoring_loop` (`src/app.py`
lines 217-227): on rejection the last-event timestamp is untouched; on
acceptance the caller sets it to the current time. -/
def debounce (cooldown last now : ℚ) : Bool × ℚ :=
  if cooldownRejects cooldown last now then (false, last) else (true, now)

/-- The accepted call times of a sequence of debounced calls, threading
the last-event timestamp exactly as the monitoring loop does. -/
def debounceAccepted (cooldown : ℚ) : ℚ → List ℚ → List ℚ
  | _, [] => []
  | last, t :: ts =>
    if cooldownRejects cooldown last t then debounceAccepted cooldown last ts
    else t :: debounceAccepted cooldown t ts

/-- The mutable state the monitoring loop threads between iterations:
the globals `last_detection_time` and `background_frame`, and the
evidence tree. -/
structure LoopState (Gray : Type) where
  lastDetectionTime : ℚ
  background : Option Gray
  store : Store

/-- The per-tick external inputs: the camera capture outcome, the clock
reading `time.time()`, the classifier-capability outcome (its random
boxes, or a raised exception), the `datetime.now()` instant and byte
sizes used by `save_detection`, and whether the image/metadata writes
succeed. -/
structure TickInput (Frame : Type) where
  captureResult : Except Unit Frame
  now : ℚ
  rawBoxes : Except Unit (List RawBox)
  timestamp : Timestamp
  imgSize : ℕ
  metaSize : ℕ
  saveOk : Bool

/-- What one iteration of `monitoring_loop` did.  The error outcomes are
the exceptions caught by the loop's `except` clause (log and sleep). -/
inductive TickResult
  | captureError
  | noMotion
  | cooldownReject
  | classifyError
  | saveError
  | saved
deriving DecidableEq, Repr

/-- One iteration of `monitoring_loop` while active (`src/app.py`
lines 212-234): capture, motion gate, cooldown check, classify, save,
update `last_detection_time`, capacity cleanup.  A stage failure abandons
the tick (the source's `except` clause) with the state reached so far;
note the motion gate has already updated the background by then. -/
def tick {Frame Gray : Type} (ops : CVOps Frame Gray) (cfg : Config)
    (inp : TickInput Frame) (st : LoopState Gray) : LoopState Gray × TickResult :=
  match inp.captureResult with
  | .error _ => (st, .captureError)
  | .ok frame =>
    let md := detect_motion ops cfg frame st.background
    let st1 : LoopState Gray := { st with background := md.2 }
    if md.1 then
      if cooldownRejects cfg.cooldown_seconds st.lastDetectionTime inp.now then
        (st1, .cooldownReject)
      else
        match inp.rawBoxes with
        | .error _ => (st1, .classifyError)
        | .ok raws =>
          let pets := detect_pets cfg raws
          -- source line 225: `if pets or True:` — the guard is always true
          if inp.saveOk then
            let store1 := save_detection inp.timestamp pets inp.imgSize inp.metaSize st1.store
            let store2 := cleanup_old_files cfg store1
            ({ lastDetectionTime := inp.now, background := st1.background,
               store := store2 }, .saved)
          else (st1, .saveError)
    else (st1, .noMotion)

/-- Running the monitoring loop over a finite window of tick inputs.
The source's `while True` never exits; every input produces a result. -/
def monitoring_run {Frame Gray : Type} (ops : CVOps Frame Gray) (cfg : Config) :
    List (TickInput Frame) → LoopState Gray → LoopState Gray × List TickResult
  | [], st => (st, [])
  | inp :: rest, st =>
    let r := tick ops cfg inp st
    let rs := monitoring_run ops cfg rest r.1
    (rs.1, r.2 :: rs.2)

/-- A trivial concrete instantiation of the abstract image primitives,
used to evaluate the loop on concrete inputs: frames and grays are
natural numbers, `countNonZero` returns the gray itself and every frame
has one pixel (so any nonzero thresholded gray counts as 100% motion). -/
def natOps : CVOps ℕ ℕ :=
  { cvtColorGray := fun n => n
    gaussianBlur := fun n => n
    absdiff := fun a b => a + b
    thresholdBinary := fun g _ => g
    addWeighted := fun a _ b _ => a + b
    countNonZero := fun g => g
    framePixels := fun _ => 1 }

/-- A concrete evidence tree of five image+metadata pairs: five 3GiB
images (total ≈ 15GB) against the default 10GB high-water mark. -/
def overfullStore : Store :=
  [⟨"cats", 1, "jpg", 1, 3221225472⟩, ⟨"cats", 1, "json", 1, 100⟩,
   ⟨"cats", 2, "jpg", 2, 3221225472⟩, ⟨"cats", 2, "json", 2, 100⟩,
   ⟨"dogs", 3, "jpg", 3, 3221225472⟩, ⟨"dogs", 3, "json", 3, 100⟩,
   ⟨"unknown", 4, "jpg", 4, 3221225472⟩, ⟨"unknown", 4, "json", 4, 100⟩,
   ⟨"cats", 5, "jpg", 5, 3221225472⟩, ⟨"cats", 5, "json", 5, 100⟩]

/-- A concrete evidence tree comfortably under the high-water mark. -/
def smallStore : Store :=
  [⟨"cats", 7, "jpg", 7, 4096⟩, ⟨"cats", 7, "json", 7, 100⟩]

/-- A concrete tick on which the classifier capability raises. -/
def inpBad : TickInput ℕ :=
  { captureResult := .ok 3
    now := 100
    rawBoxes := .error ()
    timestamp := ⟨100, 0⟩
    imgSize := 5
    metaSize := 5
    saveOk := true }

/-- A concrete loop state with an established background and empty store. -/
def stInit : LoopState ℕ :=
  { lastDetectionTime := 0, background := some 0, store := [] }

/-! ## Theorems -/

/-- C6: for every frame content and every implementation of the image
primitives, the motion gate's very first evaluation (no background model
yet) returns `false` and installs the grayscale-blurred current frame as
the background baseline. -/
theorem first_evaluation_no_motion {Frame Gray : Type} (ops : CVOps Frame Gray)
    (cfg : Config) (frame : Frame) :
    detect_motion ops cfg frame none =
      (false, some (ops.gaussianBlur (ops.cvtColorGray frame))) := rfl

/-- C8: the category assigned by the evidence writer agrees with the
spec's priority rule — `cats` if any detection is a cat, else `dogs` if
any is a dog, else `unknown` — and the empty detection list yields
`unknown`. -/
theorem category_priority (pets : List Detection) :
    categoryOf pets = categorySpec pets ∧ categoryOf [] = "unknown" := by
  constructor
  · cases pets with
    | nil => simp [categoryOf, categorySpec]
    | cons p ps => simp [categoryOf, categorySpec]
  · simp [categoryOf]

/-- C3, counterexample: the claim "an out-of-range configuration update
is rejected and the prior value is retained" is false on the code.
`fps := 0` is out of range under any reading (the loop's tick period
`1/fps` is then undefined), yet `handle_config` stores it, replacing the
prior value 2. -/
theorem config_update_counterexample :
    (handle_config ⟨some 0, none, none⟩ defaultCONFIG).fps = 0 ∧
      defaultCONFIG.fps = 2 :=
  ⟨rfl, rfl⟩

/-- C3, amended: `handle_config` performs no range validation at all:
every supplied `fps`/`high_water_mark_gb`/`detection_confidence` value —
in range or not — replaces the prior value, and fields absent from the
update (and the fields without an update path) are unchanged. -/
theorem handle_config_stores_any_value (data : ConfigUpdate) (cfg : Config) :
    (handle_config data cfg).fps = data.fps.getD cfg.fps ∧
    (handle_config data cfg).high_water_mark_gb
        = data.high_water_mark_gb.getD cfg.high_water_mark_gb ∧
    (handle_config data cfg).detection_confidence
        = data.detection_confidence.getD cfg.detection_confidence ∧
    (handle_config data cfg).motion_threshold = cfg.motion_threshold ∧
    (handle_config data cfg).cooldown_seconds = cfg.cooldown_seconds := by
  rcases data with ⟨f, h, d⟩
  cases f <;> cases h <;> cases d <;> simp [handle_config]

/-- C2: two evidence writes whose capture instants fall in the same
second (here 100.0s and 100.5s, both categorised `cats`) map to the same
`'%Y%m%d_%H%M%S'` filename stem; the second write silently replaces both
files of the first, so the store ends with two files, all carrying the
second write's timestamp — the first entry's evidence is destroyed. -/
theorem save_detection_same_second_overwrites :
    (⟨100, 0⟩ : Timestamp) ≠ ⟨100, 500000⟩ ∧
    save_detection ⟨100, 500000⟩ [⟨"cat", 4/5, [10, 10, 200, 200]⟩] 2048 256
        (save_detection ⟨100, 0⟩ [⟨"cat", 4/5, [10, 10, 200, 200]⟩] 4096 512 []) =
      [⟨"cats", 100, "jpg", 201/2, 2048⟩, ⟨"cats", 100, "json", 201/2, 256⟩] := by
  refine ⟨by simp, ?_⟩
  norm_num +decide [save_detection, writeFile, categoryOf, Timestamp.asMtime,
    List.filter_cons, List.filter_nil]

/-- C1: a completed cleanup pass on an over-the-mark store (five
image+metadata pairs, ≈15GB against the 10GB mark) deletes the oldest
image but leaves its metadata sidecar in place: the pair invariant
"image and metadata both exist or both deleted" is broken by
`cleanup_old_files`, which only ever collects `.jpg` files. -/
theorem cleanup_orphans_metadata :
    (defaultCONFIG.high_water_mark_gb : ℚ) < get_storage_usage_gb overfullStore ∧
    (⟨"cats", 1, "jpg", 1, 3221225472⟩ : StoredFile)
        ∉ cleanup_old_files defaultCONFIG overfullStore ∧
    (⟨"cats", 1, "json", 1, 100⟩ : StoredFile)
        ∈ cleanup_old_files defaultCONFIG overfullStore := by
  refine ⟨by norm_num [get_storage_usage_gb, overfullStore, defaultCONFIG], ?_, ?_⟩ <;>
    norm_num [cleanup_old_files, cleanupDoomed, get_storage_usage_gb, overfullStore,
      defaultCONFIG, List.insertionSort, List.orderedInsert, mtimeLE]

/-- C9, counterexample: the claim "every record reaching the evidence
writer has confidence ≥ the configured threshold" is false on the code.
With `detection_confidence` raised to 0.9, the mock capability (which
ignores its `conf` argument) can emit a cat box of confidence 0.6 — a
value inside its generating ranges — and `detect_pets`, which filters by
label only, forwards it. -/
theorem low_confidence_detection_reaches_writer :
    mockBoxPossible ⟨15, 3/5, [0, 0, 100, 100]⟩ ∧
    detect_pets { defaultCONFIG with detection_confidence := 9/10 }
        [⟨15, 3/5, [0, 0, 100, 100]⟩] =
      [⟨"cat", 3/5, [0, 0, 100, 100]⟩] ∧
    (3/5 : ℚ) < 9/10 := by
  refine ⟨⟨Or.inl rfl, by norm_num, by norm_num, 0, 0, 100, 100, by norm_num⟩,
    ?_, by norm_num⟩
  norm_num [detect_pets, mockYOLOCall, filterPets, mockNames]

/-- Every record produced by the box-filtering loop is labelled `cat` or
`dog`. -/
theorem filterPets_label : ∀ (boxes : List RawBox) (d : Detection),
    d ∈ filterPets boxes → d.type = "cat" ∨ d.type = "dog" := by
  intro boxes
  induction boxes with
  | nil => intro d hd; simp [filterPets] at hd
  | cons b bs ih =>
    intro d hd
    simp only [filterPets] at hd
    by_cases h : (mockNames b.cls == "cat" || mockNames b.cls == "dog") = true
    · rw [if_pos h] at hd
      rcases List.mem_cons.mp hd with rfl | hd'
      · rw [Bool.or_eq_true] at h
        rcases h with h' | h' <;> simp only [beq_iff_eq] at h' <;> simp [h']
      · exact ih d hd'
    · rw [if_neg h] at hd
      exact ih d hd

/-- C9, amended: every `DetectionRecord` returned by the classifier
boundary has label `cat` or `dog` — detections with any other label are
dropped before reaching the evidence writer.  The confidence bound is
not enforced by the boundary itself: the threshold is forwarded to the
capability, and the mock capability ignores it (see the
counterexample). -/
theorem detect_pets_label_filter (cfg : Config) (boxes : List RawBox)
    (d : Detection) (hd : d ∈ detect_pets cfg boxes) :
    d.type = "cat" ∨ d.type = "dog" :=
  filterPets_label (mockYOLOCall boxes cfg.detection_confidence) d hd

/-- Witness for the amended C9 theorem at a concrete input. -/
theorem detect_pets_label_filter_witness :
    (⟨"cat", 3/5, []⟩ : Detection).type = "cat" ∨
      (⟨"cat", 3/5, []⟩ : Detection).type = "dog" :=
  detect_pets_label_filter defaultCONFIG [⟨15, 3/5, []⟩] ⟨"cat", 3/5, []⟩
    (by norm_num [detect_pets, mockYOLOCall, filterPets, mockNames])

/-- Any two consecutive accepted call times of a debounced call sequence
are at least a cooldown apart (the initial last-event timestamp counts
as the preceding accepted time). -/
theorem debounceAccepted_chain (cooldown : ℚ) (ts : List ℚ) :
    ∀ last, List.Chain' (fun a b => cooldown ≤ b - a)
      (last :: debounceAccepted cooldown last ts) := by
  induction ts with
  | nil => intro last; simp [debounceAccepted]
  | cons t ts ih =>
    intro last
    by_cases h : cooldownRejects cooldown last t
    · simpa [debounceAccepted, h] using ih last
    · have hle : cooldown ≤ t - last := by
        simp only [cooldownRejects, decide_eq_true_eq] at h
        linarith [not_lt.mp h]
      simp only [debounceAccepted, h, if_false, Bool.false_eq_true]
      exact List.chain'_cons.mpr ⟨hle, ih t⟩

/-- C7: the debouncer accepts (returning `true` and moving the
last-event timestamp to `now`) exactly when `now - last ≥ cooldown`, and
a rejected call leaves the timestamp untouched; consequently any two
accepted calls of a call sequence are at least a cooldown apart — at
most one acceptance per cooldown window. -/
theorem debouncer_correct (cooldown last now : ℚ) (ts : List ℚ) :
    debounce cooldown last now =
      (if cooldown ≤ now - last then (true, now) else (false, last)) ∧
    List.Chain' (fun a b => cooldown ≤ b - a)
      (last :: debounceAccepted cooldown last ts) := by
  refine ⟨?_, debounceAccepted_chain cooldown ts last⟩
  by_cases h : now - last < cooldown
  · simp [debounce, cooldownRejects, h, not_le.mpr h]
  · simp [debounce, cooldownRejects, h, not_lt.mp h]

/-- The monitoring loop never terminates: every tick input of a run
produces a tick result. -/
theorem monitoring_run_length {Frame Gray : Type} (ops : CVOps Frame Gray)
    (cfg : Config) : ∀ (inps : List (TickInput Frame)) (st : LoopState Gray),
    (monitoring_run ops cfg inps st).2.length = inps.length := by
  intro inps
  induction inps with
  | nil => intro st; rfl
  | cons i is ih => intro st; simp [monitoring_run, ih]

/-- C5: when the classifier capability raises on a tick, no evidence is
written that tick (the store is unchanged), and the loop continues: a
run beginning with the failing tick still produces one result per tick,
and the remaining ticks proceed exactly as a fresh run from the
post-tick state. -/
theorem classification_failure_resilience {Frame Gray : Type}
    (ops : CVOps Frame Gray) (cfg : Config) (inp : TickInput Frame)
    (st : LoopState Gray) (rest : List (TickInput Frame))
    (hc : inp.rawBoxes = Except.error ()) :
    (tick ops cfg inp st).1.store = st.store ∧
    (monitoring_run ops cfg (inp :: rest) st).2.length = rest.length + 1 ∧
    (monitoring_run ops cfg (inp :: rest) st).2 =
      (tick ops cfg inp st).2 ::
        (monitoring_run ops cfg rest (tick ops cfg inp st).1).2 := by
  refine ⟨?_, by simpa using monitoring_run_length ops cfg (inp :: rest) st, rfl⟩
  cases h : inp.captureResult with
  | error e => simp [tick, h]
  | ok frame =>
    by_cases hm : (detect_motion ops cfg frame st.background).1
    · by_cases hcd : cooldownRejects cfg.cooldown_seconds st.lastDetectionTime inp.now
      · simp [tick, h, hm, hcd]
      · simp [tick, h, hm, hcd, hc]
    · simp [tick, h, hm]

/-- Witness for C5 at a concrete failing tick. -/
theorem classification_failure_resilience_witness :
    (tick natOps defaultCONFIG inpBad stInit).1.store = stInit.store ∧
    (monitoring_run natOps defaultCONFIG [inpBad] stInit).2.length = 1 ∧
    (monitoring_run natOps defaultCONFIG [inpBad] stInit).2 =
      (tick natOps defaultCONFIG inpBad stInit).2 ::
        (monitoring_run natOps defaultCONFIG []
          (tick natOps defaultCONFIG inpBad stInit).1).2 :=
  classification_failure_resilience natOps defaultCONFIG inpBad stInit [] rfl

/-- C10: `last_detection_time` is mutated only by a tick that completes
a successful evidence write (in which case it becomes that tick's clock
reading); in particular a tick on which the classifier raises or the
write fails — even one that passed motion and debounce — leaves it
unchanged, so a failed tick does not consume the cooldown window. -/
theorem last_update_only_on_save {Frame Gray : Type} (ops : CVOps Frame Gray)
    (cfg : Config) (inp : TickInput Frame) (st : LoopState Gray) :
    ((tick ops cfg inp st).1.lastDetectionTime = st.lastDetectionTime ∨
      ((tick ops cfg inp st).2 = TickResult.saved ∧
        (tick ops cfg inp st).1.lastDetectionTime = inp.now)) ∧
    (inp.rawBoxes = Except.error () ∨ inp.saveOk = false →
      (tick ops cfg inp st).1.lastDetectionTime = st.lastDetectionTime) := by
  cases h : inp.captureResult with
  | error e => exact ⟨Or.inl (by simp [tick, h]), fun _ => by simp [tick, h]⟩
  | ok frame =>
    by_cases hm : (detect_motion ops cfg frame st.background).1
    · by_cases hcd : cooldownRejects cfg.cooldown_seconds st.lastDetectionTime inp.now
      · exact ⟨Or.inl (by simp [tick, h, hm, hcd]),
          fun _ => by simp [tick, h, hm, hcd]⟩
      · cases hr : inp.rawBoxes with
        | error e => exact ⟨Or.inl (by simp [tick, h, hm, hcd, hr]),
            fun _ => by simp [tick, h, hm, hcd, hr]⟩
        | ok raws =>
          cases hs : inp.saveOk with
          | false => exact ⟨Or.inl (by simp [tick, h, hm, hcd, hr, hs]),
              fun _ => by simp [tick, h, hm, hcd, hr, hs]⟩
          | true =>
            refine ⟨Or.inr ⟨by simp [tick, h, hm, hcd, hr, hs],
              by simp [tick, h, hm, hcd, hr, hs]⟩, ?_⟩
            rintro (hx | hx) <;> exact absurd hx (by simp)
    · exact ⟨Or.inl (by simp [tick, h, hm]), fun _ => by simp [tick, h, hm]⟩

/-- C4: `cleanup_old_files` on a store at or below the high-water mark is
a no-op; on a store strictly above it (and with pairwise-distinct files,
as on a real filesystem) it deletes exactly
`⌊jpgCount * 0.2⌋ = ⌊jpgCount / 5⌋` of the enumerated `.jpg` evidence
files, chosen oldest-first by mtime (every deleted file is at most as
recent as every surviving `.jpg`), deletes nothing that was not in the
store, and touches no other file. -/
theorem enforce_limit_spec (cfg : Config) (store : Store) :
    (get_storage_usage_gb store ≤ (cfg.high_water_mark_gb : ℚ) →
      cleanup_old_files cfg store = store) ∧
    (store.Nodup → (cfg.high_water_mark_gb : ℚ) < get_storage_usage_gb store →
      ((cleanup_old_files cfg store).filter (fun f => f.ext == "jpg")).length
          + (store.filter (fun f => f.ext == "jpg")).length / 5
        = (store.filter (fun f => f.ext == "jpg")).length ∧
      (∀ f ∈ store, f ∉ cleanup_old_files cfg store →
        f.ext = "jpg" ∧
          ∀ g ∈ cleanup_old_files cfg store, g.ext = "jpg" → f.mtime ≤ g.mtime) ∧
      (∀ f ∈ cleanup_old_files cfg store, f ∈ store) ∧
      (∀ f ∈ store, f.ext ≠ "jpg" → f ∈ cleanup_old_files cfg store)) := by
  constructor
  · intro hle
    unfold cleanup_old_files
    rw [if_pos hle]
  · intro hnd hgt
    have hne : ¬ get_storage_usage_gb store ≤ (cfg.high_water_mark_gb : ℚ) :=
      not_le.mpr hgt
    have hclean : cleanup_old_files cfg store =
        store.filter (fun f => decide (f ∉ cleanupDoomed store)) := by
      unfold cleanup_old_files
      rw [if_neg hne]
    -- names
    have hD : cleanupDoomed store =
        (List.insertionSort mtimeLE (store.filter (fun f => f.ext == "jpg"))).take
          ((List.insertionSort mtimeLE (store.filter (fun f => f.ext == "jpg"))).length / 5) := rfl
    set jpgP : StoredFile → Bool := fun f => f.ext == "jpg" with hjpgP
    set jpgs := store.filter jpgP with hjpgs
    set sorted := List.insertionSort mtimeLE jpgs with hsorted_def
    set n := sorted.length / 5 with hn
    set D := cleanupDoomed store with hDdef
    have hDval : D = sorted.take n := hD
    have hperm : List.Perm sorted jpgs := List.perm_insertionSort mtimeLE jpgs
    have hlen : sorted.length = jpgs.length := hperm.length_eq
    have hsortednd : sorted.Nodup := hperm.nodup_iff.mpr (hnd.filter jpgP)
    have htad : sorted.take n ++ sorted.drop n = sorted := List.take_append_drop n sorted
    have hdisj : (sorted.take n).Disjoint (sorted.drop n) := by
      have := hsortednd
      rw [← htad, List.nodup_append] at this
      exact this.2.2
    have hsorted : List.Sorted mtimeLE sorted := List.sorted_insertionSort mtimeLE jpgs
    have hmemclean : ∀ f, f ∈ cleanup_old_files cfg store ↔ f ∈ store ∧ f ∉ D := by
      intro f
      rw [hclean]
      simp [List.mem_filter]
    refine ⟨?_, ?_, ?_, ?_⟩
    · -- count
      have h1 : (cleanup_old_files cfg store).filter jpgP = (store.filter jpgP).filter
          (fun f => decide (f ∉ D)) := by
        rw [hclean, List.filter_filter, List.filter_filter]
        exact List.filter_congr (fun x _ => Bool.and_comm _ _)
      have h2 : ((store.filter jpgP).filter (fun f => decide (f ∉ D))).length
          = (sorted.filter (fun f => decide (f ∉ D))).length :=
        ((hperm.filter (fun f => decide (f ∉ D))).length_eq).symm
      have h3 : sorted.filter (fun f => decide (f ∉ D)) = sorted.drop n := by
        conv_lhs => rw [← htad]
        rw [List.filter_append]
        have h4 : (sorted.take n).filter (fun f => decide (f ∉ D)) = [] := by
          rw [List.filter_eq_nil_iff]
          intro a ha
          simp [hDval, ha]
        have h5 : (sorted.drop n).filter (fun f => decide (f ∉ D)) = sorted.drop n := by
          rw [List.filter_eq_self]
          intro a ha
          simp only [decide_eq_true_eq]
          rw [hDval]
          exact fun haD => hdisj haD ha
        rw [h4, h5, List.nil_append]
      have hn5 : n = jpgs.length / 5 := by rw [hn, hlen]
      have hnle : n ≤ jpgs.length := by rw [hn5]; exact Nat.div_le_self _ _
      rw [h1, h2, h3, List.length_drop, hlen, ← hn5]
      exact Nat.sub_add_cancel hnle
    · -- deleted files are the oldest jpgs
      intro f hf hfout
      have hfD : f ∈ D := by
        by_contra hfD
        exact hfout ((hmemclean f).mpr ⟨hf, hfD⟩)
      have hfsorted : f ∈ sorted := List.take_subset n sorted (hDval ▸ hfD)
      have hfjpg : jpgP f = true := (List.mem_filter.mp (hperm.mem_iff.mp hfsorted)).2
      refine ⟨by simp only [hjpgP, beq_iff_eq] at hfjpg; exact hfjpg, ?_⟩
      intro g hg hgjpg
      have hgmem := (hmemclean g).mp hg
      have hgsorted : g ∈ sorted := by
        apply hperm.mem_iff.mpr
        rw [hjpgs]
        exact List.mem_filter.mpr ⟨hgmem.1, by simpa [hjpgP] using hgjpg⟩
      have hgdrop : g ∈ sorted.drop n := by
        have := hgsorted
        rw [← htad] at this
        rcases List.mem_append.mp this with h' | h'
        · exact absurd (hDval ▸ h' : g ∈ D) hgmem.2
        · exact h'
      have hpw := hsorted
      rw [List.Sorted, ← htad, List.pairwise_append] at hpw
      exact hpw.2.2 f (hDval ▸ hfD) g hgdrop
    · -- survivors come from the store
      intro f hf
      exact ((hmemclean f).mp hf).1
    · -- non-jpg files are untouched
      intro f hf hfnotjpg
      refine (hmemclean f).mpr ⟨hf, fun hfD => ?_⟩
      have hfsorted : f ∈ sorted := List.take_subset n sorted (hDval ▸ hfD)
      have hfjpg := (List.mem_filter.mp (hperm.mem_iff.mp hfsorted)).2
      simp only [hjpgP, beq_iff_eq] at hfjpg
      exact hfnotjpg hfjpg

/-- Witness for C4: the no-op branch on a small store and the exact
deletion count on the concrete ≈15GB store (10 jpg+json files, 5 jpgs,
`⌊5/5⌋ = 1` deleted). -/
theorem enforce_limit_spec_witness :
    cleanup_old_files defaultCONFIG smallStore = smallStore ∧
    ((cleanup_old_files defaultCONFIG overfullStore).filter (fun f => f.ext == "jpg")).length
        + (overfullStore.filter (fun f => f.ext == "jpg")).length / 5
      = (overfullStore.filter (fun f => f.ext == "jpg")).length :=
  ⟨(enforce_limit_spec defaultCONFIG smallStore).1
      (by norm_num [get_storage_usage_gb, smallStore, defaultCONFIG]),
   ((enforce_limit_spec defaultCONFIG overfullStore).2
      (by norm_num [overfullStore, List.nodup_cons, StoredFile.mk.injEq])
      (by norm_num [get_storage_usage_gb, overfullStore, defaultCONFIG])).1⟩

/-- Witness for C10 at a concrete failing tick. -/
theorem last_update_only_on_save_witness :
    (tick natOps defaultCONFIG inpBad stInit).1.lastDetectionTime
      = stInit.lastDetectionTime :=
  (last_update_only_on_save natOps defaultCONFIG inpBad stInit).2 (Or.inl rfl)

end PetDoor
